import Mathlib

/-!
Verification of the option-parsing / geometry-solving core of `mkfs.xfs`
(`src/mkfs/xfs_mkfs.c`).  The C code is shallowly embedded: machine
integers are `Nat` with explicit `% 2^64` where unsigned wrap can occur,
fatal `usage()` / `exit(1)` paths are `Except`-style error results, and
the static option/conflict table is Lean data mirroring the C initializer.
-/

namespace XfsMkfs

/-- Modulus 2^64, the modulus of C `uint64_t` arithmetic. -/
def U64 : Nat := 18446744073709551616

/-- The C name `BBSHIFT` from libxfs: log2 of the 512-byte basic block. -/
def BBSHIFT : Nat := 9

/-- The C name `BBSIZE`: the 512-byte basic block. -/
def BBSIZE : Nat := 512

/-- The C name `BBTOB(bbs)`: basic blocks to bytes. -/
def BBTOB (bbs : Nat) : Nat := bbs <<< BBSHIFT

/-- The C name `BTOBB(bytes)`: bytes to basic blocks, rounding up. -/
def BTOBB (bytes : Nat) : Nat := (bytes + BBSIZE - 1) >>> BBSHIFT

/-- The C name `BTOBBT(bytes)`: bytes to basic blocks, truncating. -/
def BTOBBT (bytes : Nat) : Nat := bytes >>> BBSHIFT

/-- The C name `XFS_MIN_BLOCKSIZE_LOG` (xfs_format.h). -/
def XFS_MIN_BLOCKSIZE_LOG : Nat := 9

/-- The C name `XFS_MAX_BLOCKSIZE_LOG` (xfs_format.h). -/
def XFS_MAX_BLOCKSIZE_LOG : Nat := 16

/-- The C name `XFS_MIN_BLOCKSIZE` = 512. -/
def XFS_MIN_BLOCKSIZE : Nat := 1 <<< XFS_MIN_BLOCKSIZE_LOG

/-- The C name `XFS_MAX_BLOCKSIZE` = 65536. -/
def XFS_MAX_BLOCKSIZE : Nat := 1 <<< XFS_MAX_BLOCKSIZE_LOG

/-- The C name `XFS_MIN_CRC_BLOCKSIZE` = 1024. -/
def XFS_MIN_CRC_BLOCKSIZE : Nat := 1 <<< 10

/-- The C name `XFS_MIN_SECTORSIZE_LOG` = 9. -/
def XFS_MIN_SECTORSIZE_LOG : Nat := 9

/-- The C name `XFS_MAX_SECTORSIZE_LOG` = 15. -/
def XFS_MAX_SECTORSIZE_LOG : Nat := 15

/-- The C name `XFS_MIN_SECTORSIZE` = 512. -/
def XFS_MIN_SECTORSIZE : Nat := 1 <<< XFS_MIN_SECTORSIZE_LOG

/-- The C name `XFS_MAX_SECTORSIZE` = 32768. -/
def XFS_MAX_SECTORSIZE : Nat := 1 <<< XFS_MAX_SECTORSIZE_LOG

/-- The C name `XFS_DINODE_MIN_LOG` = 8. -/
def XFS_DINODE_MIN_LOG : Nat := 8

/-- The C name `XFS_DINODE_MAX_LOG` = 11. -/
def XFS_DINODE_MAX_LOG : Nat := 11

/-- The C name `XFS_DINODE_MIN_SIZE` = 256. -/
def XFS_DINODE_MIN_SIZE : Nat := 1 <<< XFS_DINODE_MIN_LOG

/-- The C name `XFS_DINODE_MAX_SIZE` = 2048. -/
def XFS_DINODE_MAX_SIZE : Nat := 1 <<< XFS_DINODE_MAX_LOG

/-- The C name `XFS_DINODE_DFL_LOG` = 8 (256-byte inodes, non-CRC default). -/
def XFS_DINODE_DFL_LOG : Nat := 8

/-- The C name `XFS_DINODE_DFL_CRC_LOG` = 9 (512-byte inodes, CRC default). -/
def XFS_DINODE_DFL_CRC_LOG : Nat := 9

/-- The C name `XFS_MIN_INODE_PERBLOCK` = 2. -/
def XFS_MIN_INODE_PERBLOCK : Nat := 2

/-- The C name `XFS_MIN_REC_DIRSIZE` = 12 (directory block log lower bound). -/
def XFS_MIN_REC_DIRSIZE : Nat := 12

/-- The C name `XLOG_MAX_RECORD_BSIZE` = 256 KiB. -/
def XLOG_MAX_RECORD_BSIZE : Nat := 256 * 1024

/-- The C name `XFS_MIN_RTEXTSIZE` = 4 KiB. -/
def XFS_MIN_RTEXTSIZE : Nat := 4 * 1024

/-- The C name `XFS_MAX_RTEXTSIZE` = 1 GiB. -/
def XFS_MAX_RTEXTSIZE : Nat := 1024 * 1024 * 1024

/-- The C name `XFS_AG_BYTES(bblog)` (xfs_multidisk.h): `BBSIZE << bblog`. -/
def XFS_AG_BYTES (bblog : Nat) : Nat := BBSIZE <<< bblog

/-- The C name `XFS_AG_MIN_BYTES` = 16 MiB. -/
def XFS_AG_MIN_BYTES : Nat := XFS_AG_BYTES 15

/-- The C name `XFS_AG_MAX_BYTES` = 1 TiB. -/
def XFS_AG_MAX_BYTES : Nat := XFS_AG_BYTES 31

/-- The C name `XFS_AG_MIN_BLOCKS(blog)`: minimum AG size in fs blocks. -/
def XFS_AG_MIN_BLOCKS (blog : Nat) : Nat := XFS_AG_MIN_BYTES >>> blog

/-- The C name `XFS_AG_MAX_BLOCKS(blog)`: maximum AG size in fs blocks. -/
def XFS_AG_MAX_BLOCKS (blog : Nat) : Nat := (XFS_AG_MAX_BYTES >>> blog) - 1

/-- The C name `XFS_MAX_AGNUMBER` = 0xfffffffe (`NULLAGNUMBER - 1`). -/
def XFS_MAX_AGNUMBER : Nat := 4294967294

/-- The C name `XFS_MIN_DATA_BLOCKS` (xfs_multidisk.h). -/
def XFS_MIN_DATA_BLOCKS : Nat := 100

/-- The C name `XFS_MIN_LOG_BLOCKS` = 512 (xfs_log_format / multidisk). -/
def XFS_MIN_LOG_BLOCKS : Nat := 512

/-- The C name `XFS_MAX_LOG_BLOCKS` = 1024 * 1024. -/
def XFS_MAX_LOG_BLOCKS : Nat := 1024 * 1024

/-- The C name `XFS_MIN_LOG_BYTES` = 10 MiB. -/
def XFS_MIN_LOG_BYTES : Nat := 10 * 1024 * 1024

/-- The C name `XFS_MAX_LOG_BYTES` = 2047 MiB. -/
def XFS_MAX_LOG_BYTES : Nat := 2047 * 1024 * 1024

/-- The C name `XFS_DFL_LOG_FACTOR` = 5 (xfs_multidisk.h). -/
def XFS_DFL_LOG_FACTOR : Nat := 5

/-- The C name `XFS_DFL_BLOCKSIZE_LOG` = 12 (4096-byte blocks). -/
def XFS_DFL_BLOCKSIZE_LOG : Nat := 12

/-- The C name `XFS_DFL_IMAXIMUM_PCT` = 25: default max % of space used by inodes. -/
def XFS_DFL_IMAXIMUM_PCT : Nat := 25

/-- The C name `UINT_MAX` as used for suboption maxval bounds. -/
def UINT_MAX : Nat := 4294967295

/-- The C name `LLONG_MAX` as used for suboption maxval bounds. -/
def LLONG_MAX : Nat := 9223372036854775807

/-- The C name `TERABYTES(count, blog)` (xfs_mkfs.c line 1247): `count << (40 - blog)`. -/
def TERABYTES (count blog : Nat) : Nat := count <<< (40 - blog)

/-- The C name `GIGABYTES(count, blog)` (xfs_mkfs.c line 1248): `count << (30 - blog)`. -/
def GIGABYTES (count blog : Nat) : Nat := count <<< (30 - blog)

/-- The C name `MEGABYTES(count, blog)` (xfs_mkfs.c line 1249): `count << (20 - blog)`. -/
def MEGABYTES (count blog : Nat) : Nat := count <<< (20 - blog)

/- ------------------------------------------------------------------ -/
/- Option / suboption indices (xfs_mkfs.c lines 44-116).               -/
/- ------------------------------------------------------------------ -/

def OPT_B : Nat := 0
def B_LOG : Nat := 0
def B_SIZE : Nat := 1

def OPT_D : Nat := 1
def D_AGCOUNT : Nat := 0
def D_FILE : Nat := 1
def D_NAME : Nat := 2
def D_SIZE : Nat := 3
def D_SUNIT : Nat := 4
def D_SWIDTH : Nat := 5
def D_AGSIZE : Nat := 6
def D_SU : Nat := 7
def D_SW : Nat := 8
def D_SECTLOG : Nat := 9
def D_SECTSIZE : Nat := 10
def D_NOALIGN : Nat := 11
def D_RTINHERIT : Nat := 12
def D_PROJINHERIT : Nat := 13
def D_EXTSZINHERIT : Nat := 14

def OPT_I : Nat := 2
def I_ALIGN : Nat := 0
def I_LOG : Nat := 1
def I_MAXPCT : Nat := 2
def I_PERBLOCK : Nat := 3
def I_SIZE : Nat := 4
def I_ATTR : Nat := 5
def I_PROJID32BIT : Nat := 6
def I_SPINODES : Nat := 7

def OPT_L : Nat := 3
def L_AGNUM : Nat := 0
def L_INTERNAL : Nat := 1
def L_SIZE : Nat := 2
def L_VERSION : Nat := 3
def L_SUNIT : Nat := 4
def L_SU : Nat := 5
def L_DEV : Nat := 6
def L_SECTLOG : Nat := 7
def L_SECTSIZE : Nat := 8
def L_FILE : Nat := 9
def L_NAME : Nat := 10
def L_LAZYSBCNTR : Nat := 11

def OPT_N : Nat := 4
def N_LOG : Nat := 0
def N_SIZE : Nat := 1
def N_VERSION : Nat := 2
def N_FTYPE : Nat := 3

def OPT_R : Nat := 5
def R_EXTSIZE : Nat := 0
def R_SIZE : Nat := 1
def R_DEV : Nat := 2
def R_FILE : Nat := 3
def R_NAME : Nat := 4
def R_NOALIGN : Nat := 5

def OPT_S : Nat := 6
def S_LOG : Nat := 0
def S_SECTLOG : Nat := 1
def S_SIZE : Nat := 2
def S_SECTSIZE : Nat := 3

def OPT_M : Nat := 7
def M_CRC : Nat := 0
def M_FINOBT : Nat := 1
def M_UUID : Nat := 2
def M_RMAPBT : Nat := 3
def M_REFLINK : Nat := 4

/- ------------------------------------------------------------------ -/
/- Static option schema (struct opt_params, lines 223-1245).           -/
/- ------------------------------------------------------------------ -/

/-- One entry of a suboption's `conflicts` array (`struct
subopt_conflict`).  `LAST_CONFLICT` is the end of the Lean list. -/
structure SubConflict where
  opt : Nat
  subopt : Nat
  test_values : Bool
  invalid_value : Nat
  at_value : Nat
  message : Option String
  deriving DecidableEq, Repr

/-- An unconditional conflict entry (`.test_values = false`, no message). -/
def uncond (o s : Nat) : SubConflict := ⟨o, s, false, 0, 0, none⟩

/-- An unconditional conflict entry carrying a message. -/
def uncondMsg (o s : Nat) (m : String) : SubConflict := ⟨o, s, false, 0, 0, some m⟩

/-- A value-conditional conflict entry (`.test_values = true`). -/
def condAt (o s iv av : Nat) (m : String) : SubConflict := ⟨o, s, true, iv, av, some m⟩

/-- Static description of one suboption (`struct subopt_param`), minus
the mutable `seen` / `str_seen` / `raw_input` / `value` fields, which
live in the dynamic `OptState`.  `flagval = none` encodes
`SUBOPT_NEEDS_VAL`; `value0` is the static `.value` initializer. -/
structure SuboptParam where
  convert : Bool := false
  is_power_2 : Bool := false
  conflicts : List SubConflict := []
  minval : Nat := 0
  maxval : Nat := 0
  flagval : Option Nat := none
  value0 : Nat := 0
  deriving DecidableEq, Repr

/-- One option group (`struct opt_params`). -/
structure OptParams where
  name : Char
  subopts : List String
  subopt_params : List SuboptParam
  deriving DecidableEq, Repr

/-- The full static table `opts[MAX_OPTS]` (lines 248-1245). -/
def opts : List OptParams := [
  { name := 'b',
    subopts := ["log", "size"],
    subopt_params := [
      { conflicts := [uncond OPT_B B_SIZE],
        minval := XFS_MIN_BLOCKSIZE_LOG, maxval := XFS_MAX_BLOCKSIZE_LOG },
      { convert := true, is_power_2 := true,
        conflicts := [uncond OPT_B B_LOG],
        minval := XFS_MIN_BLOCKSIZE, maxval := XFS_MAX_BLOCKSIZE } ] },
  { name := 'd',
    subopts := ["agcount", "file", "name", "size", "sunit", "swidth",
                "agsize", "su", "sw", "sectlog", "sectsize", "noalign",
                "rtinherit", "projinherit", "extszinherit"],
    subopt_params := [
      { conflicts := [uncond OPT_D D_AGSIZE],
        minval := 1, maxval := XFS_MAX_AGNUMBER },
      { minval := 0, maxval := 1, flagval := some 1 },
      { flagval := none },
      { convert := true, minval := XFS_AG_MIN_BYTES, maxval := LLONG_MAX },
      { conflicts := [uncond OPT_D D_NOALIGN, uncond OPT_D D_SU,
                      uncond OPT_D D_SW],
        minval := 0, maxval := UINT_MAX },
      { conflicts := [uncond OPT_D D_NOALIGN, uncond OPT_D D_SU,
                      uncond OPT_D D_SW],
        minval := 0, maxval := UINT_MAX },
      { conflicts := [uncond OPT_D D_AGCOUNT],
        convert := true, minval := XFS_AG_MIN_BYTES,
        maxval := XFS_AG_MAX_BYTES },
      { conflicts := [uncond OPT_D D_NOALIGN, uncond OPT_D D_SUNIT,
                      uncond OPT_D D_SWIDTH],
        convert := true, minval := 0, maxval := UINT_MAX },
      { conflicts := [uncond OPT_D D_NOALIGN, uncond OPT_D D_SUNIT,
                      uncond OPT_D D_SWIDTH],
        minval := 0, maxval := UINT_MAX },
      { conflicts := [uncond OPT_D D_SECTSIZE],
        minval := XFS_MIN_SECTORSIZE_LOG, maxval := XFS_MAX_SECTORSIZE_LOG },
      { conflicts := [uncond OPT_D D_SECTLOG],
        convert := true, is_power_2 := true,
        minval := XFS_MIN_SECTORSIZE, maxval := XFS_MAX_SECTORSIZE },
      { conflicts := [uncond OPT_D D_SU, uncond OPT_D D_SW,
                      uncond OPT_D D_SUNIT, uncond OPT_D D_SWIDTH],
        minval := 0, maxval := 1, flagval := some 1 },
      { minval := 0, maxval := 1, flagval := some 1 },
      { minval := 0, maxval := UINT_MAX },
      { minval := 0, maxval := UINT_MAX } ] },
  { name := 'i',
    subopts := ["align", "log", "maxpct", "perblock", "size", "attr",
                "projid32bit", "sparse"],
    subopt_params := [
      { conflicts := [condAt OPT_M M_CRC 1 0
          "Inodes always aligned for CRC enabled filesytems."],
        minval := 0, maxval := 1, flagval := some 1 },
      { conflicts := [uncond OPT_I I_PERBLOCK, uncond OPT_I I_SIZE],
        minval := XFS_DINODE_MIN_LOG, maxval := XFS_DINODE_MAX_LOG },
      { minval := 0, maxval := 100 },
      { conflicts := [uncond OPT_I I_LOG, uncond OPT_I I_SIZE],
        is_power_2 := true, minval := XFS_MIN_INODE_PERBLOCK,
        maxval := XFS_MAX_BLOCKSIZE / XFS_DINODE_MIN_SIZE },
      { conflicts := [uncond OPT_I I_PERBLOCK, uncond OPT_I I_LOG],
        is_power_2 := true, minval := XFS_DINODE_MIN_SIZE,
        maxval := XFS_DINODE_MAX_SIZE },
      { conflicts := [condAt OPT_M M_CRC 1 1
          "V2 attribute format always enabled on CRC enabled filesytems."],
        minval := 0, maxval := 2 },
      { conflicts := [condAt OPT_M M_CRC 1 0
          "32 bit Project IDs always enabled on CRC enabled filesytems."],
        minval := 0, maxval := 1, flagval := some 1 },
      { conflicts := [condAt OPT_M M_CRC 0 1
          "Sparse inodes not supported without CRC support."],
        minval := 0, maxval := 1, flagval := some 1 } ] },
  { name := 'l',
    subopts := ["agnum", "internal", "size", "version", "sunit", "su",
                "logdev", "sectlog", "sectsize", "file", "name",
                "lazy-count"],
    subopt_params := [
      { conflicts := [uncond OPT_L L_DEV, uncond OPT_L L_NAME],
        minval := 0, maxval := UINT_MAX },
      { conflicts := [uncond OPT_L L_FILE, uncond OPT_L L_DEV,
                      uncond OPT_L L_NAME],
        minval := 0, maxval := 1, flagval := some 1, value0 := 1 },
      { convert := true, minval := 2 * 1024 * 1024,
        maxval := XFS_MAX_LOG_BYTES },
      { conflicts := [condAt OPT_M M_CRC 1 1
          "V2 logs are required for CRC enabled filesystems."],
        minval := 1, maxval := 2 },
      { conflicts := [uncond OPT_L L_SU],
        minval := 1, maxval := BTOBB XLOG_MAX_RECORD_BSIZE },
      { conflicts := [uncond OPT_L L_SUNIT],
        convert := true, minval := BBTOB 1,
        maxval := XLOG_MAX_RECORD_BSIZE },
      { conflicts := [uncond OPT_L L_AGNUM, uncond OPT_L L_INTERNAL] },
      { conflicts := [uncond OPT_L L_SECTSIZE],
        minval := XFS_MIN_SECTORSIZE_LOG, maxval := XFS_MAX_SECTORSIZE_LOG },
      { conflicts := [uncond OPT_L L_SECTLOG],
        convert := true, is_power_2 := true,
        minval := XFS_MIN_SECTORSIZE, maxval := XFS_MAX_SECTORSIZE },
      { conflicts := [uncond OPT_L L_INTERNAL],
        minval := 0, maxval := 1, flagval := some 1 },
      { conflicts := [uncond OPT_L L_AGNUM, uncond OPT_L L_INTERNAL] },
      { conflicts := [condAt OPT_M M_CRC 1 0
          "Lazy superblock counted always enabled for CRC enabled filesytems."],
        minval := 0, maxval := 1, flagval := some 1 } ] },
  { name := 'n',
    subopts := ["log", "size", "version", "ftype"],
    subopt_params := [
      { conflicts := [uncond OPT_N N_SIZE],
        minval := XFS_MIN_REC_DIRSIZE, maxval := XFS_MAX_BLOCKSIZE_LOG },
      { conflicts := [uncond OPT_N N_LOG],
        convert := true, is_power_2 := true,
        minval := 1 <<< XFS_MIN_REC_DIRSIZE, maxval := XFS_MAX_BLOCKSIZE },
      { minval := 2, maxval := 2 },
      { conflicts := [condAt OPT_M M_CRC 1 0
          "Cannot disable ftype with crcs enabled."],
        minval := 0, maxval := 1, flagval := some 1 } ] },
  { name := 'r',
    subopts := ["extsize", "size", "rtdev", "file", "name", "noalign"],
    subopt_params := [
      { convert := true, minval := XFS_MIN_RTEXTSIZE,
        maxval := XFS_MAX_RTEXTSIZE },
      { convert := true, minval := 0, maxval := LLONG_MAX },
      { conflicts := [uncondMsg OPT_M M_RMAPBT
          "rmapbt not supported without CRC support."] },
      { minval := 0, maxval := 1, flagval := some 1 },
      { conflicts := [uncondMsg OPT_M M_RMAPBT
          "rmapbt not supported without CRC support."] },
      { minval := 0, maxval := 1, flagval := some 1 } ] },
  { name := 's',
    subopts := ["log", "sectlog", "size", "sectsize"],
    subopt_params := [
      { conflicts := [uncond OPT_S S_SIZE, uncond OPT_S S_SECTSIZE],
        minval := XFS_MIN_SECTORSIZE_LOG, maxval := XFS_MAX_SECTORSIZE_LOG },
      { conflicts := [uncond OPT_S S_SIZE, uncond OPT_S S_SECTSIZE],
        minval := XFS_MIN_SECTORSIZE_LOG, maxval := XFS_MAX_SECTORSIZE_LOG },
      { conflicts := [uncond OPT_S S_LOG, uncond OPT_S S_SECTLOG],
        convert := true, is_power_2 := true,
        minval := XFS_MIN_SECTORSIZE, maxval := XFS_MAX_SECTORSIZE },
      { conflicts := [uncond OPT_S S_LOG, uncond OPT_S S_SECTLOG],
        convert := true, is_power_2 := true,
        minval := XFS_MIN_SECTORSIZE, maxval := XFS_MAX_SECTORSIZE } ] },
  { name := 'm',
    subopts := ["crc", "finobt", "uuid", "rmapbt", "reflink"],
    subopt_params := [
      { conflicts := [
          condAt OPT_L L_VERSION 1 1
            "V2 logs are required for CRC enabled filesystems.",
          condAt OPT_I I_ALIGN 0 1
            "Inodes always aligned for CRC enabled filesytems.",
          condAt OPT_I I_PROJID32BIT 0 1
            "32 bit Project IDs always enabled on CRC enabled filesytems.",
          condAt OPT_I I_ATTR 1 1
            "V2 attribute format always enabled on CRC enabled filesytems.",
          condAt OPT_L L_LAZYSBCNTR 0 1
            "Lazy superblock counted always enabled for CRC enabled filesytems.",
          condAt OPT_M M_FINOBT 1 0
            "Finobt not supported without CRC support.",
          condAt OPT_M M_RMAPBT 1 0
            "rmapbt not supported without CRC support.",
          condAt OPT_M M_REFLINK 1 0
            "reflink not supported without CRC support.",
          condAt OPT_I I_SPINODES 1 0
            "Sparse inodes not supported without CRC support.",
          condAt OPT_N N_FTYPE 0 1
            "Cannot disable ftype with crcs enabled."],
        minval := 0, maxval := 1, flagval := some 1 },
      { conflicts := [condAt OPT_M M_CRC 0 1
          "Finobt not supported without CRC support\n"],
        minval := 0, maxval := 1, flagval := some 1 },
      { flagval := none },
      { conflicts := [
          condAt OPT_M M_CRC 0 1
            "rmapbt not supported without CRC support.",
          uncondMsg OPT_R R_NAME
            "rmapbt not supported with realtime devices.",
          uncondMsg OPT_R R_DEV
            "rmapbt not supported with realtime devices."],
        minval := 0, maxval := 1, flagval := some 0 },
      { conflicts := [condAt OPT_M M_CRC 0 1
          "reflink not supported without CRC support."],
        minval := 0, maxval := 1, flagval := some 0 } ] } ]

/-- Look up the static parameters of `(opt, subopt)` in the table. -/
def lookupSubopt (o i : Nat) : Option SuboptParam := do
  let g ← opts.get? o
  g.subopt_params.get? i

/-- Look up the printable name of `(opt, subopt)`. -/
def suboptName (o i : Nat) : String :=
  match opts.get? o with
  | none => ""
  | some g => (g.subopts.get? i).getD ""

/-- Look up the option group letter. -/
def optChar (o : Nat) : String :=
  match opts.get? o with
  | none => ""
  | some g => String.mk [g.name]

/- ------------------------------------------------------------------ -/
/- Dynamic option state and the conflict engine                        -/
/- (check_opt lines 1863-1910, check_opt_value lines 1915-1940).       -/
/- ------------------------------------------------------------------ -/

/-- The mutable part of `struct subopt_param`. -/
structure SubState where
  seen : Bool := false
  str_seen : Bool := false
  value : Nat := 0
  deriving DecidableEq, Repr

/-- Dynamic state of the whole table, indexed by `(opt, subopt)`. -/
def OptState : Type := Nat → Nat → SubState

/-- Point update of one suboption's dynamic state. -/
def updateSub (st : OptState) (o i : Nat) (f : SubState → SubState) : OptState :=
  fun o2 i2 => if o2 = o ∧ i2 = i then f (st o2 i2) else st o2 i2

/-- Initial state: nothing seen, every `value` is the static `.value`
initializer of the table (only `L_INTERNAL` has a nonzero one). -/
def initState : OptState := fun o i =>
  match lookupSubopt o i with
  | some sp => { value := sp.value0 }
  | none => {}

/-- The C name `set_conf_val(opt, subopt, val)` (lines 1300-1306). -/
def set_conf_val (st : OptState) (o i v : Nat) : OptState :=
  updateSub st o i (fun s => { s with value := v })

/-- The C name `get_conf_val(opt, subopt)` (lines 1294-1298). -/
def get_conf_val (st : OptState) (o i : Nat) : Nat := (st o i).value

/-- Whether a conflict entry's peer is `seen || str_seen`. -/
def peerTriggered (st : OptState) (c : SubConflict) : Bool :=
  (st c.opt c.subopt).seen || (st c.opt c.subopt).str_seen

/-- The conflict loop of `check_opt` (lines 1898-1909).  Scans the
conflict list in order; the C code `break`s both at `LAST_CONFLICT`
(end of list) and at the FIRST entry with `test_values` set, so
unconditional entries after a value-conditional entry are never
examined.  Returns the first firing entry, if any. -/
def scan_unconditional (st : OptState) : List SubConflict → Option SubConflict
  | [] => none
  | c :: rest =>
    if c.test_values then none
    else if peerTriggered st c then some c
    else scan_unconditional st rest

/-- The conflict loop of `check_opt_value` (lines 1925-1939).  Scans in
order, `break`ing at the end of the list and at the first entry with
`test_values` UNSET; an entry fires when the peer is seen, the peer's
current value equals `invalid_value`, and the value being assigned
equals `at_value`. -/
def scan_value (st : OptState) (value : Nat) : List SubConflict → Option SubConflict
  | [] => none
  | c :: rest =>
    if !c.test_values then none
    else if peerTriggered st c && ((st c.opt c.subopt).value == c.invalid_value)
            && (value == c.at_value) then some c
    else scan_value st value rest

/-- Fatal parse-time outcomes.  Each constructor is one of the C error
reporters, all of which print and `exit(1)` via `usage()`. -/
inductive ParseErr where
  | respecErr (opt subopt : Nat)
  | conflictFired (opt subopt : Nat) (c : SubConflict)
  | reqvalErr (opt subopt : Nat)
  | illegalValue (opt subopt : Nat) (reason : String)
  | developerBug (opt subopt : Nat)
  | unknownSubopt (opt : Nat)
  deriving DecidableEq, Repr

/-- Render a `ParseErr` as the message the C code prints (the
`respec()` format of lines 4380-4391 and the `print_conflict_struct`
format of lines 4334-4351). -/
def renderParseErr : ParseErr → String
  | .respecErr o i =>
    "-" ++ optChar o ++ " " ++ suboptName o i ++ " option respecified"
  | .conflictFired o i c =>
    "Cannot specify both -" ++ optChar o ++ " " ++ suboptName o i ++
      " and -" ++ optChar c.opt ++ " " ++ suboptName c.opt c.subopt ++
      (match c.message with
       | some m => ": " ++ m
       | none => "")
  | .reqvalErr o i =>
    "-" ++ optChar o ++ " " ++ suboptName o i ++ " option requires a value"
  | .illegalValue o i r =>
    "Illegal value for -" ++ optChar o ++ " " ++ suboptName o i ++
      " option. " ++ r
  | .developerBug _ _ => "Developer screwed up option parsing"
  | .unknownSubopt o => "unknown option -" ++ optChar o

/-- The C name `check_opt(opt, index, str_seen)` (lines 1863-1910): respecification
tracking plus the unconditional-conflict scan.  Marks the suboption
seen (or str_seen) and fails on a re-specification or a fired
conflict. -/
def check_opt (o i : Nat) (str : Bool) (st : OptState) : Except ParseErr OptState :=
  match lookupSubopt o i with
  | none => .error (.developerBug o i)
  | some sp =>
    if !str then
      if (st o i).seen then .error (.respecErr o i)
      else
        let st2 := updateSub st o i (fun s => { s with seen := true })
        match scan_unconditional st2 sp.conflicts with
        | some c => .error (.conflictFired o i c)
        | none => .ok st2
    else
      if (st o i).str_seen then .error (.respecErr o i)
      else
        let st2 := updateSub st o i (fun s => { s with str_seen := true })
        match scan_unconditional st2 sp.conflicts with
        | some c => .error (.conflictFired o i c)
        | none => .ok st2

/-- The C name `check_opt_value(opt, index, value)` (lines 1915-1940). -/
def check_opt_value (o i value : Nat) (st : OptState) : Except ParseErr Unit :=
  match lookupSubopt o i with
  | none => .error (.developerBug o i)
  | some sp =>
    match scan_value st value sp.conflicts with
    | some c => .error (.conflictFired o i c)
    | none => .ok ()

/-- The C name `ispow2` (lines 4363-4368); its argument is a C `unsigned int`, so
the caller's 64-bit value is truncated to 32 bits first. -/
def ispow2 (n : Nat) : Bool :=
  let m := n % 4294967296
  m &&& (m - 1) == 0

/-- The numeric part of `getnum` (lines 1942-2014) after the literal
has been lexed: respecification/conflict bookkeeping via `check_opt`,
the `minval/maxval`-undefined developer check, `check_opt_value`, and
the range / power-of-two validation.  `v` is the value produced by
`cvtnum`/`strtoull` for the literal (string lexing is abstracted: the
empty-string flagval path is not taken when an explicit value is
given). -/
def getnum_parsed (o i v : Nat) (st : OptState) : Except ParseErr (Nat × OptState) :=
  match check_opt o i false st with
  | .error e => .error e
  | .ok st =>
    match lookupSubopt o i with
    | none => .error (.developerBug o i)
    | some sp =>
      if sp.minval = 0 ∧ sp.maxval = 0 then .error (.developerBug o i)
      else
        match check_opt_value o i v st with
        | .error e => .error e
        | .ok _ =>
          if v < sp.minval then .error (.illegalValue o i "value is too small")
          else if sp.maxval < v then
            .error (.illegalValue o i "value is too large")
          else if sp.is_power_2 ∧ ¬ispow2 v then
            .error (.illegalValue o i "value must be a power of 2")
          else .ok (v, st)

/-- The C name `parse_conf_val(opt, subopt, value)` (lines 1311-1318): `getnum`
followed by `set_conf_val`. -/
def parse_conf_val (o i v : Nat) (st : OptState) : Except ParseErr (Nat × OptState) :=
  match getnum_parsed o i v st with
  | .error e => .error e
  | .ok (num, st) => .ok (num, set_conf_val st o i num)

/-- The C name `libxfs_highbit32`: index of the highest set bit of the low 32
bits. -/
def libxfs_highbit32 (n : Nat) : Nat := Nat.log2 (n % 4294967296)

/-- The `-b` suboption dispatch from `main` (lines 2149-2175): `log`
writes `B_LOG` and mirrors `1 << log` into `B_SIZE`; `size` writes
`B_SIZE` and mirrors `highbit32(size)` into `B_LOG`.  Only the member
actually written is marked seen. -/
def parseB (sub v : Nat) (st : OptState) : Except ParseErr OptState :=
  if sub = B_LOG then
    match parse_conf_val OPT_B B_LOG v st with
    | .error e => .error e
    | .ok (tmp, st) => .ok (set_conf_val st OPT_B B_SIZE (1 <<< tmp))
  else if sub = B_SIZE then
    match parse_conf_val OPT_B B_SIZE v st with
    | .error e => .error e
    | .ok (tmp, st) => .ok (set_conf_val st OPT_B B_LOG (libxfs_highbit32 tmp))
  else .error (.unknownSubopt OPT_B)

/-- Project the error out of an `Except` result (the `.ok` state is a
function and has no decidable equality; claims are stated through this
projection). -/
def resultErr {α : Type} (r : Except ParseErr α) : Option ParseErr :=
  match r with
  | .error e => some e
  | .ok _ => none

/- ------------------------------------------------------------------ -/
/- Unit converter: `cvtnum` (xfs_mkfs.c lines 4402-4476).              -/
/- ------------------------------------------------------------------ -/

/-- Result of `cvtnum`: `ok` with the converted value, `einval`
(-EINVAL, a syntax error), `erange` (-ERANGE), or a direct
`usage()` exit (the `b`/`s`-before-base cases print and exit). -/
inductive CvtRes where
  | ok (v : Nat)
  | einval
  | erange
  | usageExit
  deriving DecidableEq, Repr

/-- The `switch (tolower(*sp))` fall-through cascade of lines
4451-4471: each recognised binary-SI suffix multiplies by 1024 one
more time than the next, i.e. by `1024 ^ suffix_pow c`; an unknown
character maps to 0 (the `default` branch). -/
def suffix_pow (c : Char) : Nat :=
  if c = 'e' then 6
  else if c = 'p' then 5
  else if c = 't' then 4
  else if c = 'g' then 3
  else if c = 'm' then 2
  else if c = 'k' then 1
  else 0

/-- Shallow embedding of `cvtnum(blksize, sectsize, s, val)`.  The
string has already gone through `strtoull`: `i` is the parsed integer
(the `i == 0 && sp == s` no-digits case is outside this model) and
`suffix` is the remainder of the literal after the digits.  All
multiplications wrap at 2^64 exactly as the C `uint64_t` arithmetic
does, and the range checks compare the wrapped results as the C does.
Note the `b` and `s` comparisons happen before `tolower`, so only the
six binary-SI suffixes are case-insensitive. -/
def cvtnum (blksize sectsize i : Nat) (suffix : List Char) : CvtRes :=
  match suffix with
  | [] => .ok i
  | [c0] =>
    if c0 = 'b' then
      if blksize = 0 then .usageExit
      else if i * blksize % U64 < i ∨ i * blksize % U64 < blksize then .erange
      else .ok (i * blksize % U64)
    else if c0 = 's' then
      if sectsize = 0 then .usageExit
      else if i * sectsize % U64 < i ∨ i * sectsize % U64 < sectsize then
        .erange
      else .ok (i * sectsize % U64)
    else if suffix_pow c0.toLower = 0 then .einval
    else if i * 1024 ^ suffix_pow c0.toLower % U64 < i then .erange
    else .ok (i * 1024 ^ suffix_pow c0.toLower % U64)
  | _ => .einval

/- ------------------------------------------------------------------ -/
/- `calc_default_imaxpct` (xfs_mkfs.c lines 1549-1569).                -/
/- ------------------------------------------------------------------ -/

/-- Embedding of `calc_default_imaxpct(blocklog, dblocks)`. -/
def calc_default_imaxpct (blocklog dblocks : Nat) : Nat :=
  if dblocks < TERABYTES 1 blocklog then XFS_DFL_IMAXIMUM_PCT
  else if dblocks < TERABYTES 50 blocklog then 5
  else 1

/-- Embedding of main's imaxpct fill-in (lines 3470-3473): the solved
`I_MAXPCT` is the user value when `-i maxpct` was given (`imflag`),
else `calc_default_imaxpct`. -/
def solved_imaxpct (imflag : Bool) (userVal blocklog dblocks : Nat) : Nat :=
  if imflag then userVal else calc_default_imaxpct blocklog dblocks

/- ------------------------------------------------------------------ -/
/- Feature state and the post-parse CRC feature checks                 -/
/- (struct sb_feat_args, lines 1739-1754; main lines 2686-2910).       -/
/- ------------------------------------------------------------------ -/

/-- The C name `struct sb_feat_args` with the initializer of lines 2102-2117
as field defaults (`XFS_DFL_DIR_VERSION` = 2, `XFS_IFLAG_ALIGN` =
true). -/
structure SbFeat where
  log_version : Nat := 2
  attr_version : Nat := 2
  dir_version : Nat := 2
  spinodes : Bool := false
  finobt : Bool := true
  inode_align : Bool := true
  nci : Bool := false
  lazy_sb_counters : Bool := true
  projid16bit : Bool := false
  crcs_enabled : Bool := true
  dirftype : Bool := true
  parent_pointers : Bool := false
  rmapbt : Bool := false
  reflink : Bool := false
  deriving DecidableEq, Repr

/-- The fatal messages of the post-parse feature checks, one
constructor per `fprintf`+`usage()` site. -/
inductive FeatErr where
  | minCrcBlocksize        -- line 2688
  | ftypeWithCrc           -- line 2700
  | minInodeSizeCrc        -- lines 2823, 2958
  | inodesAlwaysAligned    -- line 2831
  | lazyAlwaysEnabled      -- line 2838
  | v2LogsAlways           -- line 2845
  | v2AttrAlways           -- line 2852
  | projid32Always         -- line 2860
  | finobtNeedsCrc         -- line 2876
  | spinodesNeedCrc        -- line 2883
  | rmapbtNeedsCrc         -- line 2890
  | reflinkNeedsCrc        -- line 2897
  | rmapbtRealtime         -- line 2906
  deriving DecidableEq, Repr

/-- Lines 2680-2702: block-size bounds for CRC filesystems and the
"`-n ftype=0` alone against the crc default" check.  (The generic
512..65536 block-size bound of line 2680 is upstream of this and
orthogonal to the claims; blockSize here is the already-validated
`B_SIZE`.) -/
def ftype_vs_crc_check (f : SbFeat) (blockSize : Nat) : Except FeatErr Unit :=
  if f.crcs_enabled ∧ blockSize < XFS_MIN_CRC_BLOCKSIZE then
    .error .minCrcBlocksize
  else if f.crcs_enabled ∧ ¬f.dirftype then .error .ftypeWithCrc
  else .ok ()

/-- Lines 2801-2812: when the (possibly device-inherited) log sector
size exceeds 512 and no log stripe unit was given, force `L_SU` to the
block size and the log version to 2.  Returns the updated feature set
and `L_SU`. -/
def force_v2_log (f : SbFeat) (logSectSize lsu lsunit blockSize : Nat) :
    SbFeat × Nat :=
  if XFS_MIN_SECTORSIZE < logSectSize ∧ lsu = 0 ∧ lsunit = 0 then
    ({ f with log_version := 2 }, blockSize)
  else (f, lsu)

/-- Lines 2819-2902: with CRCs enabled, reject the non-CRC settings of
inode size/alignment, lazy counters, log version, attr version and
project-id width; with CRCs disabled, reject an explicitly requested
finobt and any requested sparse-inode / rmapbt / reflink feature, and
silently switch the (defaulted) finobt off. -/
def crc_feature_block (f : SbFeat) (isflag ilflag : Bool) (ilog : Nat)
    (finobtSeen : Bool) : Except FeatErr SbFeat :=
  if f.crcs_enabled then
    if (isflag ∨ ilflag) ∧ ilog < XFS_DINODE_DFL_CRC_LOG then
      .error .minInodeSizeCrc
    else if ¬f.inode_align then .error .inodesAlwaysAligned
    else if ¬f.lazy_sb_counters then .error .lazyAlwaysEnabled
    else if f.log_version ≠ 2 then .error .v2LogsAlways
    else if f.attr_version ≠ 2 then .error .v2AttrAlways
    else if f.projid16bit then .error .projid32Always
    else .ok f
  else
    if f.finobt ∧ finobtSeen then .error .finobtNeedsCrc
    else
      let f := { f with finobt := false }
      if f.spinodes then .error .spinodesNeedCrc
      else if f.rmapbt then .error .rmapbtNeedsCrc
      else if f.reflink then .error .reflinkNeedsCrc
      else .ok f

/-- Lines 2905-2910: rmapbt cannot be combined with a realtime
device. -/
def rmapbt_rt_check (f : SbFeat) (hasRtdev : Bool) : Except FeatErr Unit :=
  if f.rmapbt ∧ hasRtdev then .error .rmapbtRealtime else .ok ()

/-- The post-parse feature pipeline in source order: lines 2686-2702,
then the log-sector-driven v2 forcing of lines 2801-2812 (its sector
inputs are parameters since they come from device topology), then the
CRC feature block of lines 2819-2902, then the rmapbt/realtime check
of line 2905. -/
def post_parse_checks (f : SbFeat) (blockSize logSectSize lsu lsunit ilog : Nat)
    (isflag ilflag finobtSeen hasRtdev : Bool) : Except FeatErr SbFeat :=
  match ftype_vs_crc_check f blockSize with
  | .error e => .error e
  | .ok _ =>
    match crc_feature_block (force_v2_log f logSectSize lsu lsunit blockSize).1
        isflag ilflag ilog finobtSeen with
    | .error e => .error e
    | .ok f2 =>
      match rmapbt_rt_check f2 hasRtdev with
      | .error e => .error e
      | .ok _ => .ok f2

/- ------------------------------------------------------------------ -/
/- Topology resolver: data stripe adoption (main lines 3236-3263).     -/
/- ------------------------------------------------------------------ -/

/-- Result of the data-stripe resolution: the `D_SUNIT` / `D_SWIDTH` /
`D_NOALIGN` values afterwards plus which mismatch warnings were
printed. -/
structure StripeResolution where
  dsunit : Nat
  dswidth : Nat
  noalign : Nat
  warnSunit : Bool
  warnSwidth : Bool
  deriving DecidableEq, Repr

/-- Lines 3236-3263.  If `-d noalign` was in effect nothing happens
(sunit/swidth cannot have been set then).  Otherwise, if the user gave
a stripe unit, device disagreement only warns; if the user gave
neither, the device-reported `ft.dsunit` / `ft.dswidth` are adopted and
`D_NOALIGN` is set to 1 - unconditionally, whether or not the device
reported a stripe. -/
def resolve_data_stripe (noalignVal userSunit userSwidth ftDsunit ftDswidth : Nat) :
    StripeResolution :=
  if noalignVal ≠ 0 then
    ⟨userSunit, userSwidth, noalignVal, false, false⟩
  else if userSunit ≠ 0 then
    ⟨userSunit, userSwidth, noalignVal,
     decide (ftDsunit ≠ 0 ∧ ftDsunit ≠ userSunit),
     decide (ftDswidth ≠ 0 ∧ ftDswidth ≠ userSwidth)⟩
  else
    ⟨ftDsunit, ftDswidth, 1, false, false⟩

/-- The guard of the AG stripe-alignment phase (lines 3304-3309): it
runs whenever `D_SUNIT` and `D_SWIDTH` are nonzero and both are
multiples of the block size when converted from 512-byte basic blocks
to bytes - it does not consult `D_NOALIGN`. -/
def ag_alignment_applies (dsunitBB dswidthBB blockSize : Nat) : Bool :=
  dsunitBB != 0 && (BBTOB dsunitBB % blockSize == 0)
    && (dswidthBB != 0) && (BBTOB dswidthBB % blockSize == 0)

/- ------------------------------------------------------------------ -/
/- AG geometry: last-AG cleanup and validate_ag_geometry               -/
/- (main lines 3265-3468, validate_ag_geometry lines 1571-1643).       -/
/- ------------------------------------------------------------------ -/

/-- The fatal outcomes of `validate_ag_geometry`, in source order. -/
inductive AgErr where
  | agsizeTooSmall     -- line 1578
  | agsizeTooBig       -- line 1586
  | agsizeOverData     -- line 1594
  | tooManyAgs         -- line 1601 (duplicate agsize < MIN check)
  | tooFewAgs          -- line 1611 (duplicate agsize > MAX check)
  | lastAgTooSmall     -- line 1625
  | agcountTooBig      -- line 1637
  deriving DecidableEq, Repr

/-- The C name `validate_ag_geometry(blocklog, dblocks, agsize, agcount)`
(lines 1571-1643), with every `usage()` exit an error. -/
def validate_ag_geometry (blocklog dblocks agsize agcount : Nat) :
    Except AgErr Unit :=
  if agsize < XFS_AG_MIN_BLOCKS blocklog then .error .agsizeTooSmall
  else if XFS_AG_MAX_BLOCKS blocklog < agsize then .error .agsizeTooBig
  else if dblocks < agsize then .error .agsizeOverData
  else if agsize < XFS_AG_MIN_BLOCKS blocklog then .error .tooManyAgs
  else if XFS_AG_MAX_BLOCKS blocklog < agsize then .error .tooFewAgs
  else if dblocks % agsize ≠ 0 ∧ dblocks % agsize < XFS_AG_MIN_BLOCKS blocklog
    then .error .lastAgTooSmall
  else if XFS_MAX_AGNUMBER + 1 < agcount then .error .agcountTooBig
  else .ok ()

/-- The last-AG cleanup of main lines 3449-3463: when the tail
remainder is nonzero but below the AG minimum, truncate `dblocks` to
`(agcount - 1) * agsize` and decrement the AG count (the source
asserts `agcount != 0` afterwards). -/
def last_ag_cleanup (blocklog dblocks agsize agcount : Nat) : Nat × Nat :=
  if dblocks % agsize ≠ 0 ∧ dblocks % agsize < XFS_AG_MIN_BLOCKS blocklog then
    ((agcount - 1) * agsize, agcount - 1)
  else (dblocks, agcount)

/-- AG count derived from a given AG size by ceiling division
(lines 3280-3282). -/
def ag_count_from_size (dblocks agsize : Nat) : Nat :=
  dblocks / agsize + (if dblocks % agsize ≠ 0 then 1 else 0)

/-- AG size derived from a user-given AG count by ceiling division
(lines 3284-3287). -/
def ag_size_from_count (dblocks agcount : Nat) : Nat :=
  dblocks / agcount + (if dblocks % agcount ≠ 0 then 1 else 0)

/-- The AG-sizing pipeline for a user-specified AG count (`daflag`) on
a device with no stripe (so `D_SUNIT = 0` after resolution and the
stripe-alignment phase of lines 3300-3447 only zeroes the stripe
fields in its `D_NOALIGN` else-branch, leaving the geometry alone):
derive `agsize` from the count, run the last-AG cleanup, validate.
Returns the solved `(dblocks, agsize, agcount)`. -/
def ag_solve_agcount (blocklog dblocks agcount : Nat) :
    Except AgErr (Nat × Nat × Nat) :=
  let agsize := ag_size_from_count dblocks agcount
  let dc := last_ag_cleanup blocklog dblocks agsize agcount
  match validate_ag_geometry blocklog dc.1 agsize dc.2 with
  | .error e => .error e
  | .ok _ => .ok (dc.1, agsize, dc.2)

/-- The same pipeline for a user-specified AG size (`dasize`), already
converted from bytes to blocks (line 3277), on a device with no
stripe: derive the count by ceiling division, clean up, validate. -/
def ag_solve_agsize (blocklog dblocks agsize : Nat) :
    Except AgErr (Nat × Nat × Nat) :=
  let agcount := ag_count_from_size dblocks agsize
  let dc := last_ag_cleanup blocklog dblocks agsize agcount
  match validate_ag_geometry blocklog dc.1 agsize dc.2 with
  | .error e => .error e
  | .ok _ => .ok (dc.1, agsize, dc.2)

/- ------------------------------------------------------------------ -/
/- Log sizing (main lines 3506-3588 and 3613-3633).                    -/
/- ------------------------------------------------------------------ -/

/-- The fatal outcomes of `validate_log_size` (lines 1526-1547) and of
the internal-log fit checks. -/
inductive LogErr where
  | logTooSmall        -- line 1529
  | logTooManyBlocks   -- line 1535
  | logTooManyBytes    -- line 1541
  | logTooBigForAg     -- line 3627
  deriving DecidableEq, Repr

/-- The C name `validate_log_size(logblocks, blocklog, min_logblocks)`
(lines 1526-1547); the byte comparison shifts in `uint64_t`. -/
def validate_log_size (logblocks blocklog min_logblocks : Nat) :
    Except LogErr Unit :=
  if logblocks < min_logblocks then .error .logTooSmall
  else if XFS_MAX_LOG_BLOCKS < logblocks then .error .logTooManyBlocks
  else if XFS_MAX_LOG_BYTES < (logblocks <<< blocklog) % U64 then
    .error .logTooManyBytes
  else .ok ()

/-- The three auto-sizing tiers for an internal log of lines 3547-3571:
minimum-size logs below 1 GiB, `min(XFS_MIN_LOG_BYTES, min * factor)`
below 16 GiB, and the 2048:1 ratio above (computed in bytes in
`uint64_t`, then shifted back to blocks). -/
def auto_log_tiers (blocklog dblocks min_logblocks : Nat) : Nat :=
  if dblocks < GIGABYTES 1 blocklog then min_logblocks
  else if dblocks < GIGABYTES 16 blocklog then
    min (XFS_MIN_LOG_BYTES >>> blocklog) (min_logblocks * XFS_DFL_LOG_FACTOR)
  else ((dblocks <<< blocklog) % U64 / 2048) >>> blocklog

/-- Lines 3573-3578: raise the tier result to `min_logblocks`, then
reset to `min_logblocks` outright whenever it reaches the AG size. -/
def auto_log_raw (blocklog dblocks min_logblocks agsize : Nat) : Nat :=
  let l := max min_logblocks (auto_log_tiers blocklog dblocks min_logblocks)
  if agsize ≤ l then min_logblocks else l

/-- Lines 3580-3585: clamp to `XFS_MAX_LOG_BLOCKS` and then to
`XFS_MAX_LOG_BYTES` worth of blocks. -/
def auto_log_size (blocklog dblocks min_logblocks agsize : Nat) : Nat :=
  let l := min (auto_log_raw blocklog dblocks min_logblocks agsize)
    XFS_MAX_LOG_BLOCKS
  if XFS_MAX_LOG_BYTES < l <<< blocklog then XFS_MAX_LOG_BYTES >>> blocklog
  else l

/-- Lines 3613-3633 for an internal, auto-sized log: cap at
`libxfs_alloc_ag_max_usable` (external libxfs, a parameter here),
revalidate, and require the result to fit in
`agsize - libxfs_prealloc_blocks` (`uint64_t` subtraction). -/
def internal_log_fit (logblocks blocklog min_logblocks agsize maxUsable
    prealloc : Nat) : Except LogErr Nat :=
  let l := min logblocks maxUsable
  match validate_log_size l blocklog min_logblocks with
  | .error e => .error e
  | .ok _ =>
    if (agsize + U64 - prealloc) % U64 < l then .error .logTooBigForAg
    else .ok l

/-- The complete auto-sizing path for an internal log whose size the
user did not give: tiers, clamps, `validate_log_size` (line 3588),
then the fit-in-AG adjustment of lines 3613-3633. -/
def solve_internal_log_auto (blocklog dblocks min_logblocks agsize maxUsable
    prealloc : Nat) : Except LogErr Nat :=
  let l := auto_log_size blocklog dblocks min_logblocks agsize
  match validate_log_size l blocklog min_logblocks with
  | .error e => .error e
  | .ok _ => internal_log_fit l blocklog min_logblocks agsize maxUsable prealloc

/- ------------------------------------------------------------------ -/
/- Log stripe unit solving and the superblock field                    -/
/- (main lines 3479-3504 and 3756-3763).                               -/
/- ------------------------------------------------------------------ -/

/-- The C name `DTOBT(d)` (lines 1259-1260): 512-byte basic blocks to fs blocks. -/
def DTOBT (d blocklog : Nat) : Nat := d >>> (blocklog - BBSHIFT)

/-- Lines 3479-3488: a user-given `L_SUNIT` (basic blocks) is converted
to fs blocks; otherwise a v2 internal log inherits the data stripe
unit (already in fs blocks). -/
def lsunit_pick (lsunitBB dsunitFSB log_version : Nat) (internal : Bool)
    (blocklog : Nat) : Nat :=
  if lsunitBB ≠ 0 then DTOBT lsunitBB blocklog
  else if log_version = 2 ∧ internal ∧ dsunitFSB ≠ 0 then dsunitFSB
  else 0

/-- Lines 3490-3504: for v2 logs, when the pending log stripe unit
exceeds 256 KiB in bytes it is replaced by 32 KiB worth of blocks, and
the warning is printed only when the user passed `-l su`/`-l sunit`.
Returns the new `L_SUNIT` (fs blocks) and whether the warning was
printed. -/
def lsunit_cap (log_version lsunitFSB blockSize blocklog : Nat)
    (lsuflag lsunitflag : Bool) : Nat × Bool :=
  if log_version = 2 ∧ 256 * 1024 < lsunitFSB * blockSize then
    ((32 * 1024) >>> blocklog, lsuflag || lsunitflag)
  else (lsunitFSB, false)

/-- The solved log stripe unit: pick then cap. -/
def lsunit_solve (lsunitBB dsunitFSB log_version : Nat) (internal : Bool)
    (blockSize blocklog : Nat) (lsuflag lsunitflag : Bool) : Nat × Bool :=
  lsunit_cap log_version
    (lsunit_pick lsunitBB dsunitFSB log_version internal blocklog)
    blockSize blocklog lsuflag lsunitflag

/-- The C name `XFS_FSB_TO_B(mp, x)`: fs blocks to bytes. -/
def XFS_FSB_TO_B (x blocklog : Nat) : Nat := x <<< blocklog

/-- Lines 3756-3763: the `sb_logsunit` superblock field.  For v2 logs
the solved `L_SUNIT` is stored in bytes, except that a zero stripe
unit is stored as 1; for v1 logs the field is 0. -/
def sb_logsunit (log_version lsunitFSB blocklog : Nat) : Nat :=
  if log_version = 2 then
    (if lsunitFSB = 0 then 1 else XFS_FSB_TO_B lsunitFSB blocklog)
  else 0

/-- The conflict list of `(opt, subopt)` in the static table. -/
def conflictsOf (o i : Nat) : List SubConflict :=
  ((lookupSubopt o i).getD {}).conflicts

/-- The state after parsing `-r rtdev=PATH` from a fresh start: the
`R_NAME`/`R_DEV` case of main (lines 2569-2575) calls
`getstr(value, &opts[OPT_R], R_NAME)`, whose `check_opt` marks only
`R_NAME.str_seen`, and then stores 1 into the values of both `R_NAME`
and `R_DEV`. -/
def state_after_rtdev : OptState :=
  set_conf_val
    (set_conf_val
      (updateSub initState OPT_R R_NAME fun s => { s with str_seen := true })
      OPT_R R_NAME 1)
    OPT_R R_DEV 1

/-- The whole `-b size=4096 -b log=12` command line: the first write
followed by the second on the resulting state. -/
def parse_b_size_then_log (v1 v2 : Nat) : Except ParseErr OptState :=
  match parseB B_SIZE v1 initState with
  | .error e => .error e
  | .ok st => parseB B_LOG v2 st

/- ------------------------------------------------------------------ -/
/- Shared helper lemmas                                                -/
/- ------------------------------------------------------------------ -/

theorem shiftRight_mul_pow_le (a k : Nat) : (a >>> k) * 2 ^ k ≤ a := by
  rw [Nat.shiftRight_eq_div_pow]
  exact Nat.div_mul_le_self a (2 ^ k)

theorem ceil_count_coverage (d s : Nat) (hs : 0 < s) :
    (ag_count_from_size d s - 1) * s ≤ d ∧ d ≤ ag_count_from_size d s * s := by
  have hdm : s * (d / s) + d % s = d := Nat.div_add_mod d s
  have hmod : d % s < s := Nat.mod_lt d hs
  unfold ag_count_from_size
  by_cases hr : d % s ≠ 0
  · rw [if_pos hr]
    have h0 : d / s + 1 - 1 = d / s := Nat.add_sub_cancel (d / s) 1
    constructor
    · rw [h0]
      calc d / s * s = s * (d / s) := Nat.mul_comm _ _
        _ ≤ s * (d / s) + d % s := Nat.le_add_right _ _
        _ = d := hdm
    · calc d = s * (d / s) + d % s := hdm.symm
        _ ≤ s * (d / s) + s := Nat.add_le_add_left (Nat.le_of_lt hmod) _
        _ = (d / s + 1) * s := by ring
  · rw [if_neg hr]
    push_neg at hr
    have hd : s * (d / s) = d := by
      rw [hr, Nat.add_zero] at hdm
      exact hdm
    simp only [Nat.add_zero]
    constructor
    · calc (d / s - 1) * s ≤ d / s * s :=
            Nat.mul_le_mul_right s (Nat.sub_le _ _)
        _ = s * (d / s) := Nat.mul_comm _ _
        _ = d := hd
    · exact le_of_eq (hd.symm.trans (Nat.mul_comm s (d / s)))

theorem validate_ag_geometry_ok (blocklog dblocks agsize agcount : Nat)
    (h : validate_ag_geometry blocklog dblocks agsize agcount = .ok ()) :
    XFS_AG_MIN_BLOCKS blocklog ≤ agsize ∧
    agsize ≤ XFS_AG_MAX_BLOCKS blocklog ∧
    agsize ≤ dblocks ∧
    (dblocks % agsize = 0 ∨ XFS_AG_MIN_BLOCKS blocklog ≤ dblocks % agsize) ∧
    agcount ≤ XFS_MAX_AGNUMBER + 1 := by
  unfold validate_ag_geometry at h
  split_ifs at h with h1 h2 h3 h4 h5
  refine ⟨by omega, by omega, by omega, ?_, by omega⟩
  rw [not_and_or] at h4
  rcases h4 with h4 | h4
  · exact Or.inl (by omega)
  · exact Or.inr (by omega)

theorem validate_log_size_ok (logblocks blocklog min_logblocks : Nat)
    (h : validate_log_size logblocks blocklog min_logblocks = .ok ()) :
    min_logblocks ≤ logblocks ∧ logblocks ≤ XFS_MAX_LOG_BLOCKS ∧
    (logblocks <<< blocklog) % U64 ≤ XFS_MAX_LOG_BYTES := by
  unfold validate_log_size at h
  split_ifs at h with h1 h2 h3
  exact ⟨by omega, by omega, by omega⟩

theorem auto_log_size_le_max_blocks (blocklog dblocks min_logblocks agsize : Nat) :
    auto_log_size blocklog dblocks min_logblocks agsize ≤ XFS_MAX_LOG_BLOCKS := by
  simp only [auto_log_size]
  have hmle : min (auto_log_raw blocklog dblocks min_logblocks agsize)
      XFS_MAX_LOG_BLOCKS ≤ XFS_MAX_LOG_BLOCKS := min_le_right _ _
  split_ifs with h
  · rw [Nat.shiftLeft_eq] at h
    have hpow : 0 < 2 ^ blocklog := Nat.pos_pow_of_pos blocklog (by omega)
    have hlt : XFS_MAX_LOG_BYTES >>> blocklog <
        min (auto_log_raw blocklog dblocks min_logblocks agsize)
          XFS_MAX_LOG_BLOCKS := by
      rw [Nat.shiftRight_eq_div_pow]
      exact (Nat.div_lt_iff_lt_mul hpow).mpr h
    exact le_trans (le_of_lt hlt) hmle
  · exact hmle

theorem cvtnum_binary_suffix (bl sect i n : Nat) (c : Char)
    (hb : ¬c = 'b') (hs : ¬c = 's') (hn : suffix_pow c.toLower = n)
    (hnz : ¬n = 0) (h2 : i * 1024 ^ n < U64) :
    cvtnum bl sect i [c] = .ok (i * 1024 ^ n) := by
  have hv : i * 1024 ^ n % U64 = i * 1024 ^ n := Nat.mod_eq_of_lt h2
  have hge : i ≤ i * 1024 ^ n :=
    Nat.le_mul_of_pos_right i (Nat.pos_pow_of_pos n (by omega))
  show (if c = 'b' then _ else _) = _
  rw [if_neg hb, if_neg hs, hn, if_neg hnz, hv, if_neg (Nat.not_lt.mpr hge)]

theorem cvtnum_unknown_suffix (bl sect i : Nat) (c : Char)
    (hb : ¬c = 'b') (hs : ¬c = 's') (hn : suffix_pow c.toLower = 0) :
    cvtnum bl sect i [c] = .einval := by
  show (if c = 'b' then _ else _) = _
  rw [if_neg hb, if_neg hs, hn, if_pos rfl]

theorem cvtnum_s_suffix_mul (bl sect i : Nat) (c : Char) (hc : c = 's')
    (hs0 : ¬sect = 0) (h1 : 1 ≤ i) (h2 : i * sect < U64) :
    cvtnum bl sect i [c] = .ok (i * sect) := by
  have hv : i * sect % U64 = i * sect := Nat.mod_eq_of_lt h2
  have hge1 : i ≤ i * sect := Nat.le_mul_of_pos_right i (by omega)
  have hge2 : sect ≤ i * sect := Nat.le_mul_of_pos_left sect (by omega)
  show (if c = 'b' then _ else _) = _
  rw [if_neg (by simp [hc]), if_pos hc, if_neg hs0, hv,
    if_neg (by push_neg; exact ⟨hge1, hge2⟩)]

theorem cvtnum_wrap_erange (bl sect i n : Nat) (c : Char)
    (hb : ¬c = 'b') (hs : ¬c = 's') (hn : suffix_pow c.toLower = n)
    (hnz : ¬n = 0) (h : i * 1024 ^ n % U64 < i) :
    cvtnum bl sect i [c] = .erange := by
  show (if c = 'b' then _ else _) = _
  rw [if_neg hb, if_neg hs, hn, if_neg hnz, if_pos h]

theorem scan_unconditional_fires (st : OptState) (c : SubConflict)
    (pre post : List SubConflict)
    (hpre : ∀ x ∈ pre, x.test_values = false)
    (hc : c.test_values = false)
    (hseen : peerTriggered st c = true) :
    ∃ c2, scan_unconditional st (pre ++ c :: post) = some c2 := by
  induction pre with
  | nil =>
    simp only [List.nil_append, scan_unconditional, hc, Bool.false_eq_true,
      if_false, hseen, if_true]
    exact ⟨c, rfl⟩
  | cons x rest ih =>
    have hx : x.test_values = false := hpre x (List.mem_cons_self x rest)
    have hrest : ∀ y ∈ rest, y.test_values = false := fun y hy =>
      hpre y (List.mem_cons_of_mem x hy)
    simp only [List.cons_append, scan_unconditional, hx, Bool.false_eq_true,
      if_false]
    by_cases hxt : peerTriggered st x = true
    · simp only [hxt, if_true]
      exact ⟨x, rfl⟩
    · simp only [hxt, if_false]
      exact ih hrest

/- ------------------------------------------------------------------ -/
/- C5: device stripe adoption and the noalign state                    -/
/- ------------------------------------------------------------------ -/

/-- C5 counterexample.  The claim says that when the user supplies no
stripe values and the device DOES report a stripe (`ft.dsunit` = 64
basic blocks here), the `noalign` state is left unset.  In the code
(lines 3258-3262) `D_NOALIGN` is set to 1 unconditionally in that
branch, stripe or no stripe. -/
theorem C5_counterexample :
    resolve_data_stripe 0 0 0 64 256 =
      ⟨64, 256, 1, false, false⟩ ∧ (64 : Nat) ≠ 0 ∧
    (resolve_data_stripe 0 0 0 64 256).noalign ≠ 0 := by
  refine ⟨by decide, by decide, by decide⟩

/-- C5 (amended): when the user supplies neither `sunit`/`swidth` nor
`su`/`sw` and `noalign` was not requested, the resolver adopts the
device-reported stripe values and sets `D_NOALIGN` to 1 in every case
(it serves as the silently-drop-alignment-on-failure flag); AG stripe
alignment still runs for a stripe-reporting device because its guard
(lines 3304-3309) tests the stripe values, never `D_NOALIGN`. -/
theorem C5_amended_stripe_adoption (u w bs : Nat) :
    resolve_data_stripe 0 0 0 u w = ⟨u, w, 1, false, false⟩ ∧
    ag_alignment_applies (resolve_data_stripe 0 0 0 u w).dsunit
      (resolve_data_stripe 0 0 0 u w).dswidth bs =
      ag_alignment_applies u w bs := by
  constructor
  · unfold resolve_data_stripe
    simp
  · unfold resolve_data_stripe
    simp

/- ------------------------------------------------------------------ -/
/- C6: the unit converter                                              -/
/- ------------------------------------------------------------------ -/

/-- C6 counterexample.  The claim says the `s` suffix multiplies by
512.  `cvtnum` multiplies by the sector size currently configured
(line 4442): with `-d sectsize=4096` in effect, the literal `2s`
converts to 8192, not 1024. -/
theorem C6_counterexample :
    cvtnum 0 4096 2 ['s'] = .ok 8192 ∧ (2 * 512 : Nat) = 1024 ∧
    (8192 : Nat) ≠ 1024 := by
  refine ⟨by decide, by decide, by decide⟩

/-- C6 (amended): a lowercase `s` suffix (sector size set) multiplies
by the configured sector size; `k`/`m`/`g`/`t`/`p`/`e` multiply by
1024^n for n = 1..6 and only those six are case-insensitive (`b` and
`s` must be lowercase: an uppercase `B`/`S` is a syntax error); the
range check rejects a multiplication precisely when the wrapped 64-bit
product is smaller than the pre-suffix integer (or than the base for
`b`/`s`), so some genuine overflows are accepted with the wrapped
value; any literal with more than one character after the digits is a
syntax error. -/
theorem C6_amended_cvtnum (bl sect i : Nat) :
    (sect ≠ 0 → 1 ≤ i → i * sect < U64 → cvtnum bl sect i ['s'] = .ok (i * sect)) ∧
    (i * 1024 < U64 →
      cvtnum bl sect i ['k'] = .ok (i * 1024) ∧
      cvtnum bl sect i ['K'] = .ok (i * 1024)) ∧
    (i * 1024 ^ 2 < U64 →
      cvtnum bl sect i ['m'] = .ok (i * 1024 ^ 2) ∧
      cvtnum bl sect i ['M'] = .ok (i * 1024 ^ 2)) ∧
    (i * 1024 ^ 3 < U64 →
      cvtnum bl sect i ['g'] = .ok (i * 1024 ^ 3) ∧
      cvtnum bl sect i ['G'] = .ok (i * 1024 ^ 3)) ∧
    (i * 1024 ^ 4 < U64 →
      cvtnum bl sect i ['t'] = .ok (i * 1024 ^ 4) ∧
      cvtnum bl sect i ['T'] = .ok (i * 1024 ^ 4)) ∧
    (i * 1024 ^ 5 < U64 →
      cvtnum bl sect i ['p'] = .ok (i * 1024 ^ 5) ∧
      cvtnum bl sect i ['P'] = .ok (i * 1024 ^ 5)) ∧
    (i * 1024 ^ 6 < U64 →
      cvtnum bl sect i ['e'] = .ok (i * 1024 ^ 6) ∧
      cvtnum bl sect i ['E'] = .ok (i * 1024 ^ 6)) ∧
    (i * 1024 % U64 < i → cvtnum bl sect i ['k'] = .erange) ∧
    cvtnum bl sect i ['S'] = .einval ∧
    cvtnum bl sect i ['B'] = .einval ∧
    (∀ c1 c2 rest, cvtnum bl sect i (c1 :: c2 :: rest) = .einval) := by
  refine ⟨fun hs0 h1 h2 => ?_,
    fun h => ⟨cvtnum_binary_suffix bl sect i 1 'k' (by decide) (by decide)
        (by decide) (by decide) (by rw [pow_one]; exact h),
      cvtnum_binary_suffix bl sect i 1 'K' (by decide) (by decide)
        (by decide) (by decide) (by rw [pow_one]; exact h)⟩,
    fun h => ⟨cvtnum_binary_suffix bl sect i 2 'm' (by decide) (by decide)
        (by decide) (by decide) h,
      cvtnum_binary_suffix bl sect i 2 'M' (by decide) (by decide)
        (by decide) (by decide) h⟩,
    fun h => ⟨cvtnum_binary_suffix bl sect i 3 'g' (by decide) (by decide)
        (by decide) (by decide) h,
      cvtnum_binary_suffix bl sect i 3 'G' (by decide) (by decide)
        (by decide) (by decide) h⟩,
    fun h => ⟨cvtnum_binary_suffix bl sect i 4 't' (by decide) (by decide)
        (by decide) (by decide) h,
      cvtnum_binary_suffix bl sect i 4 'T' (by decide) (by decide)
        (by decide) (by decide) h⟩,
    fun h => ⟨cvtnum_binary_suffix bl sect i 5 'p' (by decide) (by decide)
        (by decide) (by decide) h,
      cvtnum_binary_suffix bl sect i 5 'P' (by decide) (by decide)
        (by decide) (by decide) h⟩,
    fun h => ⟨cvtnum_binary_suffix bl sect i 6 'e' (by decide) (by decide)
        (by decide) (by decide) h,
      cvtnum_binary_suffix bl sect i 6 'E' (by decide) (by decide)
        (by decide) (by decide) h⟩,
    fun h => cvtnum_wrap_erange bl sect i 1 'k' (by decide) (by decide)
      (by decide) (by decide) (by rw [pow_one]; exact h),
    cvtnum_unknown_suffix bl sect i 'S' (by decide) (by decide) (by decide),
    cvtnum_unknown_suffix bl sect i 'B' (by decide) (by decide) (by decide),
    fun c1 c2 rest => rfl⟩
  exact cvtnum_s_suffix_mul bl sect i 's' rfl hs0 h1 h2

/-- C6 witness for the amended theorem: `2s` at sector size 4096 is
8192, `3K` is 3072, and a two-character suffix is a syntax error. -/
theorem C6_witness :
    cvtnum 0 4096 2 ['s'] = .ok 8192 ∧
    cvtnum 0 0 3 ['K'] = .ok 3072 ∧
    cvtnum 0 0 3 ['k', 'b'] = .einval := by
  obtain ⟨hs, -, -, -, -, -, -, -, -, -, -⟩ := C6_amended_cvtnum 0 4096 2
  obtain ⟨-, hk, -, -, -, -, -, -, -, -, htrail⟩ := C6_amended_cvtnum 0 0 3
  refine ⟨?_, ?_, htrail 'k' 'b' []⟩
  · have h1 := hs (by decide) (by decide) (by decide)
    simpa using h1
  · have h1 := (hk (by decide)).2
    simpa using h1

/- ------------------------------------------------------------------ -/
/- C7: the imaxpct default                                             -/
/- ------------------------------------------------------------------ -/

/-- C7: when `-i maxpct` is not given, the solved `I_MAXPCT` is 25
below 1 TiB worth of blocks, 5 from 1 TiB up to (strictly below)
50 TiB, and 1 at 50 TiB and above, for every block log in the valid
9..16 range (`calc_default_imaxpct`, lines 1549-1569, wired in at
lines 3470-3473). -/
theorem C7_imaxpct_default (blocklog dblocks userVal : Nat)
    (h1 : XFS_MIN_BLOCKSIZE_LOG ≤ blocklog)
    (h2 : blocklog ≤ XFS_MAX_BLOCKSIZE_LOG) :
    (dblocks < TERABYTES 1 blocklog →
      solved_imaxpct false userVal blocklog dblocks = 25) ∧
    (TERABYTES 1 blocklog ≤ dblocks → dblocks < TERABYTES 50 blocklog →
      solved_imaxpct false userVal blocklog dblocks = 5) ∧
    (TERABYTES 50 blocklog ≤ dblocks →
      solved_imaxpct false userVal blocklog dblocks = 1) := by
  have htb : TERABYTES 1 blocklog ≤ TERABYTES 50 blocklog := by
    unfold TERABYTES
    simp only [Nat.shiftLeft_eq]
    exact Nat.mul_le_mul_right _ (by omega)
  unfold solved_imaxpct calc_default_imaxpct XFS_DFL_IMAXIMUM_PCT
  refine ⟨fun hlt => ?_, fun hge hlt => ?_, fun hge => ?_⟩
  · rw [if_neg (by simp), if_pos hlt]
  · rw [if_neg (by simp), if_neg (not_lt.mpr hge), if_pos hlt]
  · rw [if_neg (by simp), if_neg (not_lt.mpr (le_trans htb hge)),
      if_neg (not_lt.mpr hge)]

/-- C7 witness: a 4096-byte-block filesystem of 1000 blocks is below
1 TiB and gets the 25% default. -/
theorem C7_witness :
    XFS_MIN_BLOCKSIZE_LOG ≤ 12 ∧ (12 : Nat) ≤ XFS_MAX_BLOCKSIZE_LOG ∧
    (1000 : Nat) < TERABYTES 1 12 ∧ solved_imaxpct false 7 12 1000 = 25 :=
  ⟨by decide, by decide, by decide,
    (C7_imaxpct_default 12 1000 7 (by decide) (by decide)).1 (by decide)⟩

/- ------------------------------------------------------------------ -/
/- C9: the sb_logsunit superblock field                                -/
/- ------------------------------------------------------------------ -/

/-- C9 counterexample.  The claim says `sb_logsunit = FSB_TO_B(lsunit)`
for v2 logs "including lsunit = 0"; the code (lines 3756-3763) stores
1 when the solved stripe unit is 0, and `FSB_TO_B(0) = 0`. -/
theorem C9_counterexample :
    sb_logsunit 2 0 12 = 1 ∧ XFS_FSB_TO_B 0 12 = 0 ∧ (1 : Nat) ≠ 0 := by
  refine ⟨by decide, by decide, by decide⟩

/-- C9 (amended): for log version 2 the superblock records the log
stripe unit in bytes (`FSB_TO_B`) when it is nonzero and records 1
when it is zero; for version 1 it records 0. -/
theorem C9_amended_sb_logsunit (l blog : Nat) :
    (l ≠ 0 → sb_logsunit 2 l blog = XFS_FSB_TO_B l blog) ∧
    sb_logsunit 2 0 blog = 1 ∧ sb_logsunit 1 l blog = 0 := by
  refine ⟨fun hl => ?_, ?_, ?_⟩
  · unfold sb_logsunit
    rw [if_pos rfl, if_neg hl]
  · unfold sb_logsunit
    simp
  · unfold sb_logsunit
    simp

/-- C9 witness for the amended theorem: 16 fs blocks of 4096 bytes are
recorded as 65536 bytes. -/
theorem C9_witness :
    (16 : Nat) ≠ 0 ∧ sb_logsunit 2 16 12 = XFS_FSB_TO_B 16 12 :=
  ⟨by decide, (C9_amended_sb_logsunit 16 12).1 (by decide)⟩

/- ------------------------------------------------------------------ -/
/- C10: the 256 KiB log stripe unit cap                                -/
/- ------------------------------------------------------------------ -/

/-- C10: for version-2 logs the solved log stripe unit times the block
size never exceeds 256 KiB - whenever the value reaching the solver
(user `lsu`/`lsunit` converted to fs blocks, or the data stripe unit
inherited by an internal log) exceeds 256 KiB in bytes it is replaced
by 32 KiB worth of blocks (lines 3490-3504) - and the warning is
printed exactly when that replacement fires and the user passed
`-l su` or `-l sunit`. -/
theorem C10_lsunit_cap (lsunitBB dsunitFSB blocklog : Nat)
    (internal lsuflag lsunitflag : Bool) :
    (lsunit_solve lsunitBB dsunitFSB 2 internal (2 ^ blocklog) blocklog
      lsuflag lsunitflag).1 * 2 ^ blocklog ≤ 256 * 1024 ∧
    ((lsunit_solve lsunitBB dsunitFSB 2 internal (2 ^ blocklog) blocklog
      lsuflag lsunitflag).2 = true ↔
      (256 * 1024 <
        lsunit_pick lsunitBB dsunitFSB 2 internal blocklog * 2 ^ blocklog ∧
       (lsuflag || lsunitflag) = true)) := by
  unfold lsunit_solve lsunit_cap
  set p := lsunit_pick lsunitBB dsunitFSB 2 internal blocklog with hp
  by_cases hcap : 256 * 1024 < p * 2 ^ blocklog
  · rw [if_pos ⟨rfl, hcap⟩]
    dsimp only
    refine ⟨le_trans (shiftRight_mul_pow_le (32 * 1024) blocklog)
      (by norm_num), ?_⟩
    simp [hcap]
  · rw [if_neg fun hand => hcap hand.2]
    dsimp only
    refine ⟨Nat.le_of_not_lt hcap, ?_⟩
    simp [hcap]

theorem ag_solve_agsize_eq (blocklog dblocks agsize : Nat) :
    ag_solve_agsize blocklog dblocks agsize =
      match validate_ag_geometry blocklog
          (last_ag_cleanup blocklog dblocks agsize
            (ag_count_from_size dblocks agsize)).1 agsize
          (last_ag_cleanup blocklog dblocks agsize
            (ag_count_from_size dblocks agsize)).2 with
      | .error e => .error e
      | .ok _ =>
        .ok ((last_ag_cleanup blocklog dblocks agsize
            (ag_count_from_size dblocks agsize)).1, agsize,
          (last_ag_cleanup blocklog dblocks agsize
            (ag_count_from_size dblocks agsize)).2) := rfl

theorem solve_internal_log_auto_eq (blocklog dblocks min_logblocks agsize
    maxUsable prealloc : Nat) :
    solve_internal_log_auto blocklog dblocks min_logblocks agsize maxUsable
        prealloc =
      match validate_log_size
          (auto_log_size blocklog dblocks min_logblocks agsize) blocklog
          min_logblocks with
      | .error e => .error e
      | .ok _ =>
        internal_log_fit (auto_log_size blocklog dblocks min_logblocks agsize)
          blocklog min_logblocks agsize maxUsable prealloc := rfl

theorem internal_log_fit_eq (logblocks blocklog min_logblocks agsize maxUsable
    prealloc : Nat) :
    internal_log_fit logblocks blocklog min_logblocks agsize maxUsable
        prealloc =
      match validate_log_size (min logblocks maxUsable) blocklog
          min_logblocks with
      | .error e => .error e
      | .ok _ =>
        if (agsize + U64 - prealloc) % U64 < min logblocks maxUsable then
          .error .logTooBigForAg
        else .ok (min logblocks maxUsable) := rfl

theorem ag_min_blocks_pos (blocklog : Nat)
    (hblog : blocklog ≤ XFS_MAX_BLOCKSIZE_LOG) :
    0 < XFS_AG_MIN_BLOCKS blocklog := by
  unfold XFS_AG_MIN_BLOCKS
  have h24 : XFS_AG_MIN_BYTES = 2 ^ 24 := by decide
  have h16 : XFS_MAX_BLOCKSIZE_LOG = 16 := rfl
  rw [h24, Nat.shiftRight_eq_div_pow]
  apply Nat.div_pos
  · exact Nat.pow_le_pow_right (by omega) (by omega)
  · exact Nat.pos_pow_of_pos _ (by omega)

/- ------------------------------------------------------------------ -/
/- C1: conditional conflicts against defaulted peers                   -/
/- ------------------------------------------------------------------ -/

/-- C1 counterexample.  `-m crc` declares a conditional conflict
against `-m finobt` with `(invalid_value, at_value) = (1, 0)`, and
finobt's default is on (`sb_feat.finobt = 1`, line 2103).  The claim
says writing `-m crc=0` alone must then report the conflict and exit 1.
In the code the write parses cleanly (the peer is not `seen`, so
`check_opt_value` cannot fire, lines 1932-1936) and the post-parse
checks then SILENTLY disable finobt instead of erroring (lines
2874-2880 error only when finobt was explicitly seen): the run
continues with `finobt = 0`. -/
theorem C1_counterexample :
    condAt OPT_M M_FINOBT 1 0 "Finobt not supported without CRC support."
        ∈ conflictsOf OPT_M M_CRC ∧
    ({} : SbFeat).finobt = true ∧
    resultErr (parse_conf_val OPT_M M_CRC 0 initState) = none ∧
    post_parse_checks { crcs_enabled := false } 4096 512 0 0 9
        false false false false =
      .ok { crcs_enabled := false, finobt := false } := by
  refine ⟨by decide, by decide, by decide, rfl⟩

/-- C1 (amended): after parsing and default fill-in, a suboption set
to its `at_value` against a peer that holds `invalid_value` by default
is rejected with exit 1 for the pairs whose invalid peer value can be
a default, namely `-i align=0`, `-i projid32bit=0`, `-i attr=1`,
`-l version=1`, `-l lazy-count=0` and `-n ftype=0` against crc's
default of 1 (enforced by the dedicated post-parse checks of lines
2699 and 2819-2863, not by the table engine, whose `check_opt_value`
requires the peer to be seen); but for `-m crc=0` against the
defaulted `finobt=1` the peer is silently switched off and the run
proceeds. -/
theorem C1_amended_default_conflicts :
    post_parse_checks { inode_align := false } 4096 512 0 0 9
        false false false false = .error .inodesAlwaysAligned ∧
    post_parse_checks { projid16bit := true } 4096 512 0 0 9
        false false false false = .error .projid32Always ∧
    post_parse_checks { attr_version := 1 } 4096 512 0 0 9
        false false false false = .error .v2AttrAlways ∧
    post_parse_checks { log_version := 1 } 4096 512 0 0 9
        false false false false = .error .v2LogsAlways ∧
    post_parse_checks { lazy_sb_counters := false } 4096 512 0 0 9
        false false false false = .error .lazyAlwaysEnabled ∧
    post_parse_checks { dirftype := false } 4096 512 0 0 9
        false false false false = .error .ftypeWithCrc ∧
    post_parse_checks { crcs_enabled := false } 4096 512 0 0 9
        false false false false =
      .ok { crcs_enabled := false, finobt := false } := by
  refine ⟨rfl, rfl, rfl, rfl, rfl, rfl, rfl⟩

/- ------------------------------------------------------------------ -/
/- C2: unconditional conflicts and their list position                 -/
/- ------------------------------------------------------------------ -/

/-- C2 counterexample.  `-m rmapbt` declares unconditional conflicts
against `-r rtdev`/`-r name`, but they sit AFTER the value-conditional
crc entry in its conflict list, and `check_opt` breaks out of the scan
at the first `test_values` entry (lines 1903-1904).  After
`-r rtdev=PATH` has marked `R_NAME` as seen, writing `-m rmapbt=1`
succeeds - no "Cannot specify both" conflict fires, contradicting the
claim's "regardless of the entry's position". -/
theorem C2_counterexample :
    check_opt OPT_R R_NAME true initState =
      .ok (updateSub initState OPT_R R_NAME
        fun s => { s with str_seen := true }) ∧
    conflictsOf OPT_M M_RMAPBT =
      [condAt OPT_M M_CRC 0 1 "rmapbt not supported without CRC support.",
       uncondMsg OPT_R R_NAME "rmapbt not supported with realtime devices.",
       uncondMsg OPT_R R_DEV "rmapbt not supported with realtime devices."] ∧
    peerTriggered state_after_rtdev
      (uncondMsg OPT_R R_NAME "rmapbt not supported with realtime devices.")
      = true ∧
    resultErr (parse_conf_val OPT_M M_RMAPBT 1 state_after_rtdev) = none := by
  refine ⟨rfl, by decide, by decide, by decide⟩

/-- C2 (amended): an unconditional conflict entry fires at the write of
S whenever the peer has been seen, PROVIDED every earlier entry in S's
conflict list is also unconditional - the scan stops at the first
value-conditional entry, so entries after one are dead at write time
(for the rmapbt/realtime pairs the combination is instead refused by
the dedicated post-parse check of lines 2905-2910).  When it applies,
the write fails with the conflict error that prints `Cannot specify
both -X a and -Y b`. -/
theorem C2_amended_unconditional_conflict (st : OptState) (o i : Nat)
    (sp : SuboptParam) (pre post : List SubConflict) (c : SubConflict)
    (hlook : lookupSubopt o i = some sp)
    (hsplit : sp.conflicts = pre ++ c :: post)
    (hpre : ∀ x ∈ pre, x.test_values = false)
    (hc : c.test_values = false)
    (hnotseen : (st o i).seen = false)
    (hseen : peerTriggered
      (updateSub st o i fun s => { s with seen := true }) c = true) :
    ∃ c2, check_opt o i false st = .error (.conflictFired o i c2) := by
  obtain ⟨c2, hscan⟩ := scan_unconditional_fires
    (updateSub st o i fun s => { s with seen := true }) c pre post hpre hc hseen
  refine ⟨c2, ?_⟩
  unfold check_opt
  rw [hlook]
  simp only [Bool.not_false, if_true, hnotseen, Bool.false_eq_true, if_false,
    ← hsplit] at hscan ⊢
  rw [hscan]

/-- C2 witness: `-b size` seen, then writing `-b log` (whose single
conflict entry is unconditional) fails with the conflict error. -/
theorem C2_witness :
    ∃ c2, check_opt OPT_B B_LOG false
      (updateSub initState OPT_B B_SIZE fun s => { s with seen := true }) =
        .error (.conflictFired OPT_B B_LOG c2) :=
  C2_amended_unconditional_conflict
    (updateSub initState OPT_B B_SIZE fun s => { s with seen := true })
    OPT_B B_LOG
    { conflicts := [uncond OPT_B B_SIZE],
      minval := XFS_MIN_BLOCKSIZE_LOG, maxval := XFS_MAX_BLOCKSIZE_LOG }
    [] [] (uncond OPT_B B_SIZE)
    (by decide) rfl (by intro x hx; cases hx) rfl (by decide) (by decide)

/- ------------------------------------------------------------------ -/
/- C8: -b size=4096 -b log=12                                          -/
/- ------------------------------------------------------------------ -/

/-- C8 counterexample.  The command line `-b size=4096 -b log=12` does
exit 1, but through the alias-group CONFLICT path (`B_LOG`'s
unconditional conflict with the already-seen `B_SIZE`), printing
`Cannot specify both -b log and -b size` - not the claimed
`-b size option respecified` (the `respec()` format, which would
require `B_LOG` itself to have been seen twice). -/
theorem C8_counterexample :
    resultErr (parse_b_size_then_log 4096 12) =
      some (.conflictFired OPT_B B_LOG (uncond OPT_B B_SIZE)) ∧
    some (ParseErr.conflictFired OPT_B B_LOG (uncond OPT_B B_SIZE)) ≠
      some (ParseErr.respecErr OPT_B B_SIZE) ∧
    renderParseErr (.conflictFired OPT_B B_LOG (uncond OPT_B B_SIZE)) =
      "Cannot specify both -b log and -b size" ∧
    renderParseErr (.conflictFired OPT_B B_LOG (uncond OPT_B B_SIZE)) ≠
      "-b size option respecified" := by
  refine ⟨by decide, by decide, by decide, by decide⟩

/-- C8 (amended): `-b size=4096 -b log=12` terminates with exit status
1; the second write is caught by the unconditional conflict that each
member of the `b {log,size}` alias group declares against the other
(the first write marked `B_SIZE` seen), and the message printed is
`Cannot specify both -b log and -b size`.  The first write alone
succeeds. -/
theorem C8_amended_alias_respec :
    resultErr (parseB B_SIZE 4096 initState) = none ∧
    resultErr (parse_b_size_then_log 4096 12) =
      some (.conflictFired OPT_B B_LOG (uncond OPT_B B_SIZE)) ∧
    renderParseErr (.conflictFired OPT_B B_LOG (uncond OPT_B B_SIZE)) =
      "Cannot specify both -b log and -b size" := by
  refine ⟨by decide, by decide, by decide⟩

/- ------------------------------------------------------------------ -/
/- C3: AG coverage, the last-AG rule, and the cleanup                  -/
/- ------------------------------------------------------------------ -/

/-- C3 counterexample.  With a user-specified AG count the solver
derives `agsize = ceil(dblocks / agcount)` (lines 3284-3287), and
nothing re-establishes the claimed coverage lower bound: for
`-d agcount=8194` on a 128 GiB data device (`dblocks = 33554432`,
4096-byte blocks) the run reaches and passes `validate_ag_geometry`
with `agsize = 4096`, yet `(agcount - 1) * agsize = 33558528 >
dblocks`.  (8194 is within the option's `XFS_MAX_AGNUMBER` range and
4096 equals `XFS_AG_MIN_BLOCKS(12)`, so every validator check
passes.) -/
theorem C3_counterexample :
    ag_solve_agcount 12 33554432 8194 = .ok (33554432, 4096, 8194) ∧
    ¬((8194 - 1) * 4096 ≤ 33554432) ∧
    (8194 : Nat) ≤ XFS_MAX_AGNUMBER ∧
    XFS_AG_MIN_BLOCKS 12 = 4096 := by
  refine ⟨rfl, by decide, by decide, by decide⟩

/-- C3 (amended): when the AG count is derived from the AG size by
ceiling division (the user-agsize and auto paths; NOT the user-agcount
path, where the lower bound can fail), every input that passes the
last-AG cleanup and `validate_ag_geometry` satisfies
`(ag_count - 1) * ag_size ≤ data_blocks ≤ ag_count * ag_size`, the
last AG is full or at least `XFS_AG_MIN_BLOCKS(block_log)`, and when
the remainder is nonzero but below that minimum the solver decrements
the AG count by one and truncates `data_blocks` to
`(ag_count - 1) * ag_size`. -/
theorem C3_amended_coverage (blocklog dblocks agsize d s c : Nat)
    (hblog : blocklog ≤ XFS_MAX_BLOCKSIZE_LOG)
    (h : ag_solve_agsize blocklog dblocks agsize = .ok (d, s, c)) :
    s = agsize ∧
    ((c - 1) * s ≤ d ∧ d ≤ c * s) ∧
    (d % s = 0 ∨ XFS_AG_MIN_BLOCKS blocklog ≤ d % s) ∧
    ((dblocks % agsize ≠ 0 ∧
        dblocks % agsize < XFS_AG_MIN_BLOCKS blocklog) →
      c = ag_count_from_size dblocks agsize - 1 ∧
      d = (ag_count_from_size dblocks agsize - 1) * agsize) := by
  have hminpos : 0 < XFS_AG_MIN_BLOCKS blocklog := ag_min_blocks_pos blocklog hblog
  rw [ag_solve_agsize_eq] at h
  by_cases hcond : dblocks % agsize ≠ 0 ∧
      dblocks % agsize < XFS_AG_MIN_BLOCKS blocklog
  · have hclean : last_ag_cleanup blocklog dblocks agsize
        (ag_count_from_size dblocks agsize) =
        ((ag_count_from_size dblocks agsize - 1) * agsize,
         ag_count_from_size dblocks agsize - 1) := by
      unfold last_ag_cleanup
      rw [if_pos hcond]
    simp only [hclean] at h
    split at h
    · exact Except.noConfusion h
    · rename_i u hv
      cases u
      rw [Except.ok.injEq, Prod.mk.injEq, Prod.mk.injEq] at h
      obtain ⟨hd, hs, hc⟩ := h
      subst hd; subst hs; subst hc
      refine ⟨rfl, ⟨Nat.mul_le_mul_right _ (Nat.sub_le _ _), le_refl _⟩,
        Or.inl (Nat.mul_mod_left _ _), fun _ => ⟨rfl, rfl⟩⟩
  · have hclean : last_ag_cleanup blocklog dblocks agsize
        (ag_count_from_size dblocks agsize) =
        (dblocks, ag_count_from_size dblocks agsize) := by
      unfold last_ag_cleanup
      rw [if_neg hcond]
    simp only [hclean] at h
    split at h
    · exact Except.noConfusion h
    · rename_i u hv
      cases u
      rw [Except.ok.injEq, Prod.mk.injEq, Prod.mk.injEq] at h
      obtain ⟨hd, hs, hc⟩ := h
      subst hd; subst hs; subst hc
      have hfacts := validate_ag_geometry_ok _ _ _ _ hv
      have hspos : 0 < agsize := lt_of_lt_of_le hminpos hfacts.1
      exact ⟨rfl, ceil_count_coverage dblocks agsize hspos,
        hfacts.2.2.2.1, fun hcond2 => absurd hcond2 hcond⟩

/-- C3 witness: a 128 GiB filesystem with `-d agsize=64m`
(`agsize = 16384` blocks of 4096 bytes) solves to 2048 AGs and
satisfies the coverage bounds. -/
theorem C3_witness :
    ag_solve_agsize 12 33554432 16384 = .ok (33554432, 16384, 2048) ∧
    (2048 - 1) * 16384 ≤ 33554432 ∧ (33554432 : Nat) ≤ 2048 * 16384 := by
  have h := C3_amended_coverage 12 33554432 16384 33554432 16384 2048
    (by decide) rfl
  exact ⟨rfl, h.2.1.1, h.2.1.2⟩

/- ------------------------------------------------------------------ -/
/- C4: internal-log auto-sizing bounds                                 -/
/- ------------------------------------------------------------------ -/

/-- C4: for an internal log whose size the user did not give, a run
that passes the log-size validation ends with `log_blocks` in
`[min_log_blocks, min(agsize - prealloc, XFS_MAX_LOG_BLOCKS,
XFS_MAX_LOG_BYTES / block_size)]`, and whenever the tier-computed
value (raised to `min_log_blocks`) reaches the AG size it is reset to
`min_log_blocks` before the clamping (lines 3544-3588 and
3613-3633). -/
theorem C4_internal_log_bounds (blocklog dblocks min_logblocks agsize
    maxUsable prealloc l : Nat)
    (hblog : blocklog ≤ XFS_MAX_BLOCKSIZE_LOG)
    (hag : agsize < U64) (hpre : prealloc ≤ agsize)
    (h : solve_internal_log_auto blocklog dblocks min_logblocks agsize
      maxUsable prealloc = .ok l) :
    min_logblocks ≤ l ∧ l ≤ agsize - prealloc ∧ l ≤ XFS_MAX_LOG_BLOCKS ∧
    l <<< blocklog ≤ XFS_MAX_LOG_BYTES ∧
    (agsize ≤ max min_logblocks
        (auto_log_tiers blocklog dblocks min_logblocks) →
      auto_log_raw blocklog dblocks min_logblocks agsize = min_logblocks) := by
  have hreset : agsize ≤ max min_logblocks
      (auto_log_tiers blocklog dblocks min_logblocks) →
      auto_log_raw blocklog dblocks min_logblocks agsize = min_logblocks := by
    intro hr
    unfold auto_log_raw
    rw [if_pos hr]
  set l0 := auto_log_size blocklog dblocks min_logblocks agsize with hl0
  rw [solve_internal_log_auto_eq] at h
  split at h
  · exact Except.noConfusion h
  · rename_i u1 hv1
    rw [internal_log_fit_eq] at h
    split at h
    · exact Except.noConfusion h
    · rename_i u2 hv2
      cases u2
      split_ifs at h with hfit
      rw [Except.ok.injEq] at h
      subst h
      push_neg at hfit
      have hval := validate_log_size_ok _ _ _ hv2
      have hmod : (agsize + U64 - prealloc) % U64 = agsize - prealloc := by
        have h1 : agsize + U64 - prealloc = (agsize - prealloc) + U64 := by
          omega
        rw [h1, Nat.add_mod_right]
        exact Nat.mod_eq_of_lt (by omega)
      refine ⟨hval.1, ?_, hval.2.1, ?_, hreset⟩
      · rw [hmod] at hfit
        exact hfit
      · have h20 : (2 : Nat) ^ 20 = 1048576 := by norm_num
        have hlt : (min l0 maxUsable) <<< blocklog < U64 := by
          rw [Nat.shiftLeft_eq]
          have hle1 : min l0 maxUsable ≤ 2 ^ 20 := by
            have hmb := hval.2.1
            unfold XFS_MAX_LOG_BLOCKS at hmb
            omega
          have hle2 : (2 : Nat) ^ blocklog ≤ 2 ^ 16 := by
            have h16 : XFS_MAX_BLOCKSIZE_LOG = 16 := rfl
            exact Nat.pow_le_pow_right (by omega) (by omega)
          calc min l0 maxUsable * 2 ^ blocklog ≤ 2 ^ 20 * 2 ^ 16 :=
                Nat.mul_le_mul hle1 hle2
            _ < U64 := by norm_num [U64]
        have hbytes := hval.2.2
        rw [Nat.mod_eq_of_lt hlt] at hbytes
        exact hbytes

/-- C4 witness: a 100 MiB filesystem (tier 1) with
`min_log_blocks = 2560`, `agsize = 16384`, `maxUsable = 16000` and
`prealloc = 100` auto-sizes to 2560 blocks, within all the bounds. -/
theorem C4_witness :
    solve_internal_log_auto 12 25600 2560 16384 16000 100 = .ok 2560 ∧
    (2560 : Nat) ≤ 16384 - 100 ∧ (2560 : Nat) ≤ XFS_MAX_LOG_BLOCKS := by
  have h := C4_internal_log_bounds 12 25600 2560 16384 16000 100 2560
    (by decide) (by decide) (by decide) rfl
  exact ⟨rfl, h.2.1, h.2.2.1⟩

end XfsMkfs
